import Mathlib

/-!
Verification of the Teams bot-provisioning reference implementation
(`backend/server-confidential.js` and the duplicated demo variants).

The development shallowly embeds the consent-checking state machine, the
admin-consent URL builder, the four-step provisioning orchestration and the
session store.  Remote collaborators (MSAL token acquisition, Microsoft Graph,
the Teams Developer Portal) are modelled as oracles: functions supplied as
parameters whose results drive the embedded control flow, so every theorem
quantifies over all collaborator behaviours.
-/

namespace BotProv

/-! ## JavaScript string primitives used by the source -/

/-- Substring occurrence test on character lists: `hay` contains `sub` as a
contiguous run.  This models `String.prototype.includes`. -/
def includesAux (sub : List Char) : List Char → Bool
  | [] => sub.isPrefixOf ([] : List Char)
  | c :: t => sub.isPrefixOf (c :: t) || includesAux sub t

/-- JavaScript `s.includes(sub)`. -/
def jsIncludes (s sub : String) : Bool :=
  includesAux sub.toList s.toList

/-- Splitting a character list at every occurrence of `sep`, accumulating the
current (reversed) segment; models `String.prototype.split` with a
single-character separator, which always yields at least one segment. -/
def splitCharAux (sep : Char) : List Char → List Char → List String
  | [], cur => [String.mk cur.reverse]
  | c :: t, cur =>
    if c = sep then String.mk cur.reverse :: splitCharAux sep t []
    else splitCharAux sep t (c :: cur)

/-- JavaScript `s.split(sep)` for a one-character separator. -/
def jsSplit (s : String) (sep : Char) : List String :=
  splitCharAux sep s.toList []

/-- JavaScript `s.startsWith(p)`. -/
def jsStartsWith (s p : String) : Bool :=
  p.toList.isPrefixOf s.toList

/-- JavaScript `scope.split('/').pop()`: the final segment of the string after
splitting on `/` (the whole string when no `/` occurs). -/
def scopeNameOf (scope : String) : String :=
  (jsSplit scope '/').getLastD ""

/-- Characters left unescaped by ECMAScript `encodeURIComponent`:
ASCII alphanumerics and `- _ . ! ~ * ' ( )`. -/
def uriUnescaped (c : Char) : Bool :=
  (c ≥ 'A' && c ≤ 'Z') || (c ≥ 'a' && c ≤ 'z') || (c ≥ '0' && c ≤ '9') ||
  c = '-' || c = '_' || c = '.' || c = '!' || c = '~' || c = '*' ||
  c = Char.ofNat 39 || c = '(' || c = ')'

/-- Upper-case hexadecimal digit for a value below 16. -/
def hexDigit (n : Nat) : Char :=
  if n < 10 then Char.ofNat (48 + n) else Char.ofNat (55 + n)

/-- UTF-8 code units of one code point, as numbers below 256. -/
def utf8Bytes (c : Char) : List Nat :=
  let n := c.toNat
  if n < 128 then [n]
  else if n < 2048 then [192 + n / 64, 128 + n % 64]
  else if n < 65536 then [224 + n / 4096, 128 + (n / 64) % 64, 128 + n % 64]
  else [240 + n / 262144, 128 + (n / 4096) % 64, 128 + (n / 64) % 64, 128 + n % 64]

/-- Percent-escape of one byte: `%XX` with upper-case hex. -/
def percentByte (b : Nat) : List Char :=
  ['%', hexDigit (b / 16), hexDigit (b % 16)]

/-- ECMAScript `encodeURIComponent`: unescaped characters pass through, every
other character is replaced by the percent-escapes of its UTF-8 bytes. -/
def encodeURIComponent (s : String) : String :=
  String.mk (s.toList.flatMap fun c =>
    if uriUnescaped c then [c] else (utf8Bytes c).flatMap percentByte)

/-! ## Silent token acquisition (the MSAL collaborator)

`cca.acquireTokenSilent` either resolves, or rejects with an error object
carrying `errorCode`, `name` and `message` fields.  The handlers read
`error.errorCode || error.name` and `error.message || ''`, so the model keeps
the raw fields (absent or empty ones included) and embeds the `||` fallbacks. -/

structure SilentError where
  errorCode : Option String
  name : String
  message : Option String
deriving Repr, DecidableEq

inductive AcquireResult where
  | ok
  | err (e : SilentError)
deriving Repr, DecidableEq

/-- JavaScript `a || b` on an optionally-present string `a`: the fallback fires
when `a` is absent (`undefined`) or empty (falsy). -/
def jsOr (a : Option String) (b : String) : String :=
  match a with
  | none => b
  | some s => if s = "" then b else s

/-- The `errorCode` the handler works with: `error.errorCode || error.name`. -/
def SilentError.effCode (e : SilentError) : String :=
  jsOr e.errorCode e.name

/-- The `errorMessage` the handler works with: `error.message || ''`. -/
def SilentError.effMessage (e : SilentError) : String :=
  jsOr e.message ""

/-- Detail text of the thrown check failure: `errorCode || error.message`;
a template-rendered absent message shows as `undefined`. -/
def SilentError.failDetail (e : SilentError) : String :=
  if e.effCode = "" then
    match e.message with
    | none => "undefined"
    | some m => m
  else e.effCode

/-- Consent-error classification from the check-consent handler:
`consent_required`, `interaction_required`, or `invalid_grant` whose message
mentions `AADSTS65001` or `has not consented`. -/
def isConsentError (errorCode errorMessage : String) : Bool :=
  errorCode == "consent_required" ||
  errorCode == "interaction_required" ||
  (errorCode == "invalid_grant" &&
    (jsIncludes errorMessage "AADSTS65001" || jsIncludes errorMessage "has not consented"))

/-- An acquisition outcome the handler treats as an unexpected failure
(the fail-fast branch). -/
def AcquireResult.unexpectedFailure : AcquireResult → Bool
  | .ok => false
  | .err e => !(isConsentError e.effCode e.effMessage)

/-- An acquisition outcome classified as a missing-consent failure. -/
def AcquireResult.consentFailure : AcquireResult → Bool
  | .ok => false
  | .err e => isConsentError e.effCode e.effMessage

/-! ## The consent check (`POST /api/auth/check-consent`) -/

structure Account where
  homeAccountId : String
  username : String
  tenantId : String
deriving Repr, DecidableEq

structure ConsentConfig where
  clientId : String
  adminConsentRedirectUri : String
  graphScopes : List String
  tdpScopes : List String
deriving Repr, DecidableEq

/-- Default configuration of `backend/server-confidential.js` sibling
`part_009` with no environment overrides. -/
def CONFIG : ConsentConfig :=
  { clientId := "YOUR_CLIENT_ID"
    adminConsentRedirectUri := "http://localhost:8080/admin-consent-callback.html"
    graphScopes := ["https://graph.microsoft.com/Application.ReadWrite.All"]
    tdpScopes := ["https://dev.teams.microsoft.com/AppDefinitions.ReadWrite"] }

/-- Accumulated loop state: `grantedScopes`, `missingScopes`, `scopeErrors`. -/
structure ScopeAcc where
  granted : List String
  missing : List String
  scopeErrors : List (String × String)
deriving Repr, DecidableEq

/-- One `for (const scope of ...)` loop of the check-consent handler.  Each
scope is tried with `acquireTokenSilent`; success records the short scope name
as granted, a consent-classified rejection records it as missing, any other
rejection throws and aborts the whole check. -/
def checkScopesLoop (acquire : String → AcquireResult) :
    List String → ScopeAcc → Except String ScopeAcc
  | [], acc => .ok acc
  | scope :: rest, acc =>
    match acquire scope with
    | .ok =>
        checkScopesLoop acquire rest
          { acc with granted := acc.granted ++ [scopeNameOf scope] }
    | .err e =>
        if isConsentError e.effCode e.effMessage then
          checkScopesLoop acquire rest
            { acc with
              missing := acc.missing ++ [scopeNameOf scope]
              scopeErrors := acc.scopeErrors ++ [(scopeNameOf scope, e.effCode)] }
        else
          .error ("Failed to check scope " ++ scopeNameOf scope ++ ": " ++ e.failDetail)

/-- Admin consent URL template from the check-consent handler. -/
def adminConsentUrlFor (tenantId clientId adminConsentRedirectUri : String) : String :=
  "https://login.microsoftonline.com/" ++ tenantId ++ "/adminconsent?client_id=" ++
    clientId ++ "&redirect_uri=" ++ encodeURIComponent adminConsentRedirectUri

/-- JSON body of a successful check-consent response.  Fields the handler
omits in the all-granted branch are modelled as `[]` / `none`. -/
structure ConsentResponse where
  hasConsent : Bool
  grantedScopes : List String
  missingScopes : List String
  scopeErrors : List (String × String)
  adminConsentUrl : Option String
deriving Repr, DecidableEq

/-- Body of `POST /api/auth/check-consent` after the session lookup: the two
scope loops (Graph scopes then TDP scopes, pushing into the same arrays),
then either the missing-consent response with the admin consent URL or the
all-granted response.  A thrown loop error becomes the 500 response. -/
def checkConsent (cfg : ConsentConfig) (acquire : String → AcquireResult)
    (account : Account) : Except String ConsentResponse := do
  let acc ← checkScopesLoop acquire cfg.graphScopes ⟨[], [], []⟩
  let acc ← checkScopesLoop acquire cfg.tdpScopes acc
  if acc.missing.length > 0 then
    return { hasConsent := false
             grantedScopes := acc.granted
             missingScopes := acc.missing
             scopeErrors := acc.scopeErrors
             adminConsentUrl :=
               some (adminConsentUrlFor account.tenantId cfg.clientId
                 cfg.adminConsentRedirectUri) }
  else
    return { hasConsent := true
             grantedScopes := acc.granted
             missingScopes := []
             scopeErrors := []
             adminConsentUrl := none }

/-- Spec-side description of the recorded scope name: the substring of the
scope URI after its final `/` (used to compare against the implementation's
`split('/').pop()`). -/
def suffixAfterLastSlash (s : String) : String :=
  String.mk ((s.toList.reverse.takeWhile (fun c => c ≠ '/')).reverse)

/-! ## Provisioning orchestration

The wizard frontends drive the pipeline by `fetch`-ing the backend endpoints
in sequence; each endpoint wraps one remote collaborator.  The embedding
records every collaborator invocation in a trace and models each call's
outcome by an oracle.  An `Except.error` of an oracle is a rejected request
(the frontends' `catch` path). -/

inductive RemoteCall where
  | createAadApp (appName : String)
  | createClientSecret (objectId : String)
  | createTeamsApp (clientId appName : String)
  | registerBot (botId botName messagingEndpoint : String)
  | provisionComplete
deriving Repr, DecidableEq

/-- Response of `POST /api/provision/aad-app` (the reference backend returns
the Graph application's `appId` and object id). -/
structure AadAppResult where
  clientId : String
  objectId : String
deriving Repr, DecidableEq

structure SecretResult where
  clientSecret : String
deriving Repr, DecidableEq

structure TeamsAppResult where
  teamsAppId : String
  tenantId : String
deriving Repr, DecidableEq

/-- The four provisioning collaborators plus the final credentials echo, as
oracles keyed by the data each backend call receives. -/
structure Backend where
  aadApp : String → Except String AadAppResult
  clientSecret : String → Except String SecretResult
  teamsApp : String → String → Except String TeamsAppResult
  bot : String → String → String → Except String Unit
  complete : Except String String
deriving Inhabited

/-- Credentials object accumulated by the `app.js` wizard (`credentials.X = ...`
assignments); a field is `none` until its step has run. -/
structure WizardCreds where
  clientIdVal : Option String
  clientSecretVal : Option String
  teamsAppIdVal : Option String
  botEndpointVal : Option String
  tenantIdVal : Option String
deriving Repr, DecidableEq

/-- Credentials displayed by the reference frontend's `displayResults`
(`botId`, `botPassword`, `teamsAppId`, `tenantId`). -/
structure RefCreds where
  botId : String
  botPassword : String
  teamsAppId : String
  tenantId : String
deriving Repr, DecidableEq

/-- The `runProvisioning` sequence of the wizard `app.js`: create the AAD app,
mint the secret with the object id from step 1, import the Teams package for
the client id from step 1, register the bot with the client id and the
caller's endpoint, then fetch the completed credentials (which supply the
tenant id).  A rejected call jumps to the `catch` block, surfacing the error
with the credentials accumulated so far discarded from the result.  This view
collapses each step to its success path (an `Except.error` is a rejected
fetch) and is exact on all-success runs; the wizard never reads
`response.ok`, so a resolved HTTP error body behaves differently — that path
is embedded in full by `runProvisioningFetch` below. -/
def runProvisioning (b : Backend) (botName botEndpoint : String) :
    Except String WizardCreds × List RemoteCall :=
  let t1 := [RemoteCall.createAadApp botName]
  match b.aadApp botName with
  | .error e => (.error e, t1)
  | .ok aadApp =>
    let t2 := t1 ++ [RemoteCall.createClientSecret aadApp.objectId]
    match b.clientSecret aadApp.objectId with
    | .error e => (.error e, t2)
    | .ok secret =>
      let t3 := t2 ++ [RemoteCall.createTeamsApp aadApp.clientId botName]
      match b.teamsApp aadApp.clientId botName with
      | .error e => (.error e, t3)
      | .ok teamsApp =>
        let t4 := t3 ++ [RemoteCall.registerBot aadApp.clientId botName botEndpoint]
        match b.bot aadApp.clientId botName botEndpoint with
        | .error e => (.error e, t4)
        | .ok _ =>
          let t5 := t4 ++ [RemoteCall.provisionComplete]
          match b.complete with
          | .error e => (.error e, t5)
          | .ok tenantId =>
            (.ok { clientIdVal := some aadApp.clientId
                   clientSecretVal := some secret.clientSecret
                   teamsAppIdVal := some teamsApp.teamsAppId
                   botEndpointVal := some botEndpoint
                   tenantIdVal := some tenantId }, t5)

/-- The wizard's start-provision click handler: both fields must be filled and
the endpoint must start with `https://`; only then is `runProvisioning`
invoked.  Either alert aborts with no backend call. -/
def startProvisionClick (b : Backend) (botName botEndpoint : String) :
    Except String WizardCreds × List RemoteCall :=
  if botName = "" ∨ botEndpoint = "" then
    (.error "Please fill in all fields", [])
  else if !(jsStartsWith botEndpoint "https://") then
    (.error "Bot endpoint must be HTTPS", [])
  else
    runProvisioning b botName botEndpoint

/-! ### Fetch-level embedding of the wizard pipeline

Every step of the wizard `runProvisioning` is
`await fetch(...).then(r => r.json())` and `response.ok` is never read.  A
promise rejection (network failure) jumps to the `catch` block; a resolved
response with an HTTP error status still parses — the backend error body is a
JSON object with a single `error` property — so the field reads the next
steps perform yield `undefined` and the pipeline continues.  `FetchResult` distinguishes the two
outcomes and the body structures keep each read field optional, exactly as
JSON property access does. -/

inductive FetchResult (α : Type) where
  | resolved (body : α)
  | rejected (e : String)
deriving Repr, DecidableEq

/-- Parsed body of `POST /api/provision/aad-app` as the wizard reads it:
both fields absent on an error body. -/
structure AadAppBody where
  clientId : Option String
  objectId : Option String
deriving Repr, DecidableEq

/-- Parsed body of `POST /api/provision/client-secret` as the wizard reads
it. -/
structure SecretBody where
  clientSecret : Option String
deriving Repr, DecidableEq

/-- Parsed body of `POST /api/provision/teams-app` as the wizard reads it. -/
structure TeamsAppBody where
  teamsAppId : Option String
deriving Repr, DecidableEq

/-- The credentials object echoed by `POST /api/provision/complete`. -/
structure CompleteEcho where
  TENANT_ID : Option String
deriving Repr, DecidableEq

/-- Parsed body of `POST /api/provision/complete`: the `credentials` property
is absent on an error body, so reading `TENANT_ID` off it throws. -/
structure CompleteBody where
  credentials : Option CompleteEcho
deriving Repr, DecidableEq

/-- Wizard backend calls with the values their request bodies actually carry
(`undefined` fields included: the secret call sends step 1's `objectId`, the
package and bot calls send step 1's `clientId`, present or not). -/
inductive WizardCall where
  | aadAppPost (appName : String)
  | clientSecretPost (objectId : Option String)
  | teamsAppPost (manifestId : Option String) (appName : String)
  | botPost (botId : Option String) (botName endpoint : String)
  | completePost
deriving Repr, DecidableEq

/-- The five wizard endpoints as fetch oracles.  The bot call's parsed body is
never read, so both a success and an error body are `resolved ()` — the
wizard cannot tell them apart. -/
structure WizardBackend where
  aadApp : String → FetchResult AadAppBody
  clientSecret : Option String → FetchResult SecretBody
  teamsApp : Option String → String → FetchResult TeamsAppBody
  bot : Option String → String → String → FetchResult Unit
  complete : FetchResult CompleteBody

/-- `runProvisioning` of the wizard at fetch-level fidelity: only a rejected
fetch reaches the `catch` block; a resolved error body continues with
`undefined` field values and no error is surfaced.  The final step reads
`complete.credentials.TENANT_ID`, so an error body there throws a
`TypeError` which the `catch` block reports. -/
def runProvisioningFetch (b : WizardBackend) (botName botEndpoint : String) :
    Except String WizardCreds × List WizardCall :=
  let t1 := [WizardCall.aadAppPost botName]
  match b.aadApp botName with
  | .rejected e => (.error e, t1)
  | .resolved aadApp =>
    let t2 := t1 ++ [WizardCall.clientSecretPost aadApp.objectId]
    match b.clientSecret aadApp.objectId with
    | .rejected e => (.error e, t2)
    | .resolved secret =>
      let t3 := t2 ++ [WizardCall.teamsAppPost aadApp.clientId botName]
      match b.teamsApp aadApp.clientId botName with
      | .rejected e => (.error e, t3)
      | .resolved teamsApp =>
        let t4 := t3 ++ [WizardCall.botPost aadApp.clientId botName botEndpoint]
        match b.bot aadApp.clientId botName botEndpoint with
        | .rejected e => (.error e, t4)
        | .resolved _ =>
          let t5 := t4 ++ [WizardCall.completePost]
          match b.complete with
          | .rejected e => (.error e, t5)
          | .resolved comp =>
            match comp.credentials with
            | none => (.error "TypeError: Cannot read properties of undefined", t5)
            | some echo =>
              (.ok { clientIdVal := aadApp.clientId
                     clientSecretVal := secret.clientSecret
                     teamsAppIdVal := teamsApp.teamsAppId
                     botEndpointVal := some botEndpoint
                     tenantIdVal := echo.TENANT_ID }, t5)

/-- `startProvisioning` of the reference frontend (`part_000`): the same four
steps, each helper throwing a step-specific message on a non-OK response, and
`displayResults` receiving step 1's client id, step 2's secret, step 3's
Teams app id and the session's tenant id.  The `complete` call does not exist
in this variant; the tenant id comes from `userInfo`. -/
def startProvisioningRef (b : Backend) (userTenantId botName botEndpoint : String) :
    Except String RefCreds × List RemoteCall :=
  if botName = "" ∨ botEndpoint = "" then
    (.error "Please fill in all bot details", [])
  else
    let t1 := [RemoteCall.createAadApp botName]
    match b.aadApp botName with
    | .error e => (.error ("AAD app creation failed: " ++ e), t1)
    | .ok aadApp =>
      let t2 := t1 ++ [RemoteCall.createClientSecret aadApp.objectId]
      match b.clientSecret aadApp.objectId with
      | .error e => (.error ("Secret generation failed: " ++ e), t2)
      | .ok secret =>
        let t3 := t2 ++ [RemoteCall.createTeamsApp aadApp.clientId botName]
        match b.teamsApp aadApp.clientId botName with
        | .error e => (.error ("Teams app creation failed: " ++ e), t3)
        | .ok teamsApp =>
          let t4 := t3 ++ [RemoteCall.registerBot aadApp.clientId botName botEndpoint]
          match b.bot aadApp.clientId botName botEndpoint with
          | .error e => (.error ("Bot registration failed: " ++ e), t4)
          | .ok _ =>
            (.ok { botId := aadApp.clientId
                   botPassword := secret.clientSecret
                   teamsAppId := teamsApp.teamsAppId
                   tenantId := userTenantId }, t4)

/-! ## The bot-registration endpoint (`POST /api/provision/bot`)

Two embeddings: the confidential-client servers (`server-confidential.js`,
`part_009`), which on HTTP 409 fetch a fresh TDP token and issue one update
call; and the device-code server (`part_008`), whose 409 branch references the
`token` constant that is block-scoped to the `try` block — evaluating the
update request's headers therefore throws `ReferenceError: token is not
defined` inside the inner `try`, so the update request is never issued and the
inner `catch` answers 500. -/

inductive BotCall where
  | acquireToken
  | createBot (token botId botName endpoint : String)
  | updateBot (token botId botName endpoint : String)
deriving Repr, DecidableEq

/-- Outcome of the `axios.post` creating the bot entry: resolved, rejected
with HTTP status 409, or rejected otherwise. -/
inductive CreateBotOutcome where
  | ok
  | conflict
  | otherFailure (e : String)
deriving Repr, DecidableEq

/-- Collaborators of the bot endpoint: the n-th silent token fetch of the
request, the create call and the update call. -/
structure BotApi where
  getToken : Nat → Except String String
  create : String → String → String → String → CreateBotOutcome
  update : String → String → String → String → Except String Unit

inductive BotResponse where
  | success (updated : Bool)
  | serverError (msg : String)
deriving Repr, DecidableEq

/-- Body of `POST /api/provision/bot` in `server-confidential.js` / `part_009`
after the session check: token fetch, create call; on 409 a second token fetch
and a single update call with the same bot id, name and endpoint. -/
def provisionBotConfidential (api : BotApi) (botId botName endpoint : String) :
    BotResponse × List BotCall :=
  match api.getToken 0 with
  | .error e => (.serverError e, [BotCall.acquireToken])
  | .ok tok =>
    let t := [BotCall.acquireToken, BotCall.createBot tok botId botName endpoint]
    match api.create tok botId botName endpoint with
    | .ok => (.success false, t)
    | .otherFailure e => (.serverError e, t)
    | .conflict =>
      match api.getToken 1 with
      | .error e => (.serverError e, t ++ [BotCall.acquireToken])
      | .ok tok2 =>
        let t2 := t ++ [BotCall.acquireToken, BotCall.updateBot tok2 botId botName endpoint]
        match api.update tok2 botId botName endpoint with
        | .ok _ => (.success true, t2)
        | .error e => (.serverError e, t2)

/-- Body of `POST /api/provision/bot` in `part_008` after the session check.
Identical up to the 409 branch; there the update request's header template
reads `token`, a `const` declared inside the `try` block and thus not in
scope in the `catch` block, so a `ReferenceError` is thrown before
`axios.post` runs and the inner `catch` returns it as a 500. -/
def provisionBotDeviceCode (api : BotApi) (botId botName endpoint : String) :
    BotResponse × List BotCall :=
  match api.getToken 0 with
  | .error e => (.serverError e, [BotCall.acquireToken])
  | .ok tok =>
    let t := [BotCall.acquireToken, BotCall.createBot tok botId botName endpoint]
    match api.create tok botId botName endpoint with
    | .ok => (.success false, t)
    | .otherFailure e => (.serverError e, t)
    | .conflict => (.serverError "token is not defined", t)

/-! ## Sessions and the authentication callback -/

structure SessionData where
  account : Account
  createdAt : Nat
deriving Repr, DecidableEq

/-- The in-memory session store: a JavaScript `Map` in insertion order. -/
def Sessions := List (String × SessionData)

/-- `sessions.set(k, v)`: replace in place when the key exists, else append. -/
def sessionsSet (m : List (String × SessionData)) (k : String) (v : SessionData) :
    List (String × SessionData) :=
  if m.any (fun p => p.1 = k) then
    m.map (fun p => if p.1 = k then (k, v) else p)
  else
    m ++ [(k, v)]

/-- `sessions.get(k)`. -/
def sessionsGet (m : List (String × SessionData)) (k : String) : Option SessionData :=
  (m.find? (fun p => p.1 = k)).map (·.2)

/-- Response of a successful `POST /api/auth/callback`. -/
structure AuthCallbackResponse where
  sessionId : String
  username : String
  tenantId : String
deriving Repr, DecidableEq

/-- `POST /api/auth/callback`: reject a missing (or empty, i.e. falsy) code
with 400; otherwise exchange the code (`acquireTokenByCode`, an oracle), store
the returned account under a freshly generated session id and answer with the
session id and display info.  `genId` is the value produced by
`generateSessionId()` (an entropy draw) and `now` the value of `Date.now()`. -/
def authCallback (exchange : String → Except String Account) (genId : String)
    (now : Nat) (sessions : List (String × SessionData)) (code : Option String) :
    List (String × SessionData) × Except String AuthCallbackResponse :=
  match code with
  | none => (sessions, .error "Missing authorization code")
  | some c =>
    if c = "" then (sessions, .error "Missing authorization code")
    else
      match exchange c with
      | .error e => (sessions, .error e)
      | .ok account =>
        (sessionsSet sessions genId { account := account, createdAt := now },
         .ok { sessionId := genId, username := account.username,
               tenantId := account.tenantId })

/-- Result of the check-consent endpoint including the session gate. -/
inductive EndpointResult where
  | invalidSession
  | ok (r : ConsentResponse)
  | failed (msg : String)
deriving Repr, DecidableEq

/-- `POST /api/auth/check-consent` including the `sessions.get` lookup: 401 on
an unknown session id, otherwise the consent check over the stored account. -/
def checkConsentEndpoint (cfg : ConsentConfig) (acquire : String → AcquireResult)
    (sessions : List (String × SessionData)) (sessionId : String) : EndpointResult :=
  match sessionsGet sessions sessionId with
  | none => .invalidSession
  | some sess =>
    match checkConsent cfg acquire sess.account with
    | .ok r => .ok r
    | .error e => .failed e

/-! ## Lemmas about the scope-checking loop -/

theorem checkScopesLoop_append_scopes (acquire : String → AcquireResult) :
    ∀ (l1 l2 : List String) (acc : ScopeAcc),
      checkScopesLoop acquire (l1 ++ l2) acc =
        (checkScopesLoop acquire l1 acc).bind (fun a => checkScopesLoop acquire l2 a) := by
  intro l1
  induction l1 with
  | nil => intro l2 acc; simp [checkScopesLoop, Except.bind]
  | cons head rest ih =>
    intro l2 acc
    simp only [List.cons_append, checkScopesLoop]
    cases acquire head with
    | ok => exact ih l2 _
    | err e =>
      by_cases hc : isConsentError e.effCode e.effMessage = true
      · simp [hc, ih]
      · simp [hc, Except.bind]

theorem checkConsent_run (cfg : ConsentConfig) (acquire : String → AcquireResult)
    (account : Account) :
    checkConsent cfg acquire account =
      match checkScopesLoop acquire (cfg.graphScopes ++ cfg.tdpScopes) ⟨[], [], []⟩ with
      | .error e => .error e
      | .ok acc =>
        if acc.missing.length > 0 then
          .ok { hasConsent := false
                grantedScopes := acc.granted
                missingScopes := acc.missing
                scopeErrors := acc.scopeErrors
                adminConsentUrl :=
                  some (adminConsentUrlFor account.tenantId cfg.clientId
                    cfg.adminConsentRedirectUri) }
        else
          .ok { hasConsent := true
                grantedScopes := acc.granted
                missingScopes := []
                scopeErrors := []
                adminConsentUrl := none } := by
  rw [checkConsent, checkScopesLoop_append_scopes]
  cases h1 : checkScopesLoop acquire cfg.graphScopes ⟨[], [], []⟩ with
  | error e => simp [Except.bind, Bind.bind]
  | ok a =>
    cases h2 : checkScopesLoop acquire cfg.tdpScopes a with
    | error e => simp [Except.bind, Bind.bind, h2]
    | ok acc =>
      by_cases hm : acc.missing.length > 0 <;>
        simp [Except.bind, Bind.bind, h2, hm, pure, Except.pure]

theorem checkScopesLoop_error_of_unexpected (acquire : String → AcquireResult) :
    ∀ (scopes : List String) (acc : ScopeAcc),
      (∃ s ∈ scopes, (acquire s).unexpectedFailure = true) →
      ∃ msg, checkScopesLoop acquire scopes acc = .error msg := by
  intro scopes
  induction scopes with
  | nil => intro acc h; rcases h with ⟨s, hs, _⟩; cases hs
  | cons head rest ih =>
    intro acc h
    rcases h with ⟨s, hs, hu⟩
    rcases List.mem_cons.mp hs with rfl | hmem
    · cases hacq : acquire s with
      | ok => rw [hacq] at hu; simp [AcquireResult.unexpectedFailure] at hu
      | err e =>
        rw [hacq] at hu
        simp only [AcquireResult.unexpectedFailure, Bool.not_eq_true'] at hu
        have hu2 : ¬ isConsentError e.effCode e.effMessage = true := by simp [hu]
        simp only [checkScopesLoop, hacq, if_neg hu2]
        exact ⟨_, rfl⟩
    · cases hacq : acquire head with
      | ok =>
        simp only [checkScopesLoop, hacq]
        exact ih _ ⟨s, hmem, hu⟩
      | err e =>
        by_cases hc : isConsentError e.effCode e.effMessage = true
        · simp only [checkScopesLoop, hacq, if_pos hc]
          exact ih _ ⟨s, hmem, hu⟩
        · simp only [checkScopesLoop, hacq, if_neg hc]
          exact ⟨_, rfl⟩

theorem checkScopesLoop_granted_src (acquire : String → AcquireResult) :
    ∀ (scopes : List String) (acc acc' : ScopeAcc),
      checkScopesLoop acquire scopes acc = .ok acc' →
      ∀ n ∈ acc'.granted,
        n ∈ acc.granted ∨ ∃ s, s ∈ scopes ∧ scopeNameOf s = n ∧ acquire s = .ok := by
  intro scopes
  induction scopes with
  | nil =>
    intro acc acc' h n hn
    simp only [checkScopesLoop] at h
    cases h
    exact .inl hn
  | cons head rest ih =>
    intro acc acc' h n hn
    cases hacq : acquire head with
    | ok =>
      simp only [checkScopesLoop, hacq] at h
      rcases ih _ _ h n hn with hold | ⟨s, hs, hname, hok⟩
      · rcases List.mem_append.mp hold with hl | hr
        · exact .inl hl
        · exact .inr ⟨head, List.mem_cons_self _ _, (List.mem_singleton.mp hr).symm, hacq⟩
      · exact .inr ⟨s, List.mem_cons_of_mem _ hs, hname, hok⟩
    | err e =>
      by_cases hc : isConsentError e.effCode e.effMessage = true
      · simp only [checkScopesLoop, hacq, if_pos hc] at h
        rcases ih _ _ h n hn with hold | ⟨s, hs, hname, hok⟩
        · exact .inl hold
        · exact .inr ⟨s, List.mem_cons_of_mem _ hs, hname, hok⟩
      · simp only [checkScopesLoop, hacq, if_neg hc] at h
        cases h

theorem checkScopesLoop_missing_src (acquire : String → AcquireResult) :
    ∀ (scopes : List String) (acc acc' : ScopeAcc),
      checkScopesLoop acquire scopes acc = .ok acc' →
      ∀ n ∈ acc'.missing,
        n ∈ acc.missing ∨
          ∃ s, s ∈ scopes ∧ scopeNameOf s = n ∧ (acquire s).consentFailure = true := by
  intro scopes
  induction scopes with
  | nil =>
    intro acc acc' h n hn
    simp only [checkScopesLoop] at h
    cases h
    exact .inl hn
  | cons head rest ih =>
    intro acc acc' h n hn
    cases hacq : acquire head with
    | ok =>
      simp only [checkScopesLoop, hacq] at h
      rcases ih _ _ h n hn with hold | ⟨s, hs, hname, hcf⟩
      · exact .inl hold
      · exact .inr ⟨s, List.mem_cons_of_mem _ hs, hname, hcf⟩
    | err e =>
      by_cases hc : isConsentError e.effCode e.effMessage = true
      · simp only [checkScopesLoop, hacq, if_pos hc] at h
        rcases ih _ _ h n hn with hold | ⟨s, hs, hname, hcf⟩
        · rcases List.mem_append.mp hold with hl | hr
          · exact .inl hl
          · refine .inr ⟨head, List.mem_cons_self _ _, (List.mem_singleton.mp hr).symm, ?_⟩
            simp [AcquireResult.consentFailure, hacq, hc]
        · exact .inr ⟨s, List.mem_cons_of_mem _ hs, hname, hcf⟩
      · simp only [checkScopesLoop, hacq, if_neg hc] at h
        cases h

theorem checkScopesLoop_missing_mono (acquire : String → AcquireResult) :
    ∀ (scopes : List String) (acc acc' : ScopeAcc),
      checkScopesLoop acquire scopes acc = .ok acc' →
      ∀ n ∈ acc.missing, n ∈ acc'.missing := by
  intro scopes
  induction scopes with
  | nil =>
    intro acc acc' h n hn
    simp only [checkScopesLoop] at h
    cases h
    exact hn
  | cons head rest ih =>
    intro acc acc' h n hn
    cases hacq : acquire head with
    | ok =>
      simp only [checkScopesLoop, hacq] at h
      exact ih _ _ h n hn
    | err e =>
      by_cases hc : isConsentError e.effCode e.effMessage = true
      · simp only [checkScopesLoop, hacq, if_pos hc] at h
        exact ih _ _ h n (List.mem_append.mpr (.inl hn))
      · simp only [checkScopesLoop, hacq, if_neg hc] at h
        cases h

theorem checkScopesLoop_missing_complete (acquire : String → AcquireResult) :
    ∀ (scopes : List String) (acc acc' : ScopeAcc),
      checkScopesLoop acquire scopes acc = .ok acc' →
      ∀ s, s ∈ scopes → (acquire s).consentFailure = true →
        scopeNameOf s ∈ acc'.missing := by
  intro scopes
  induction scopes with
  | nil => intro acc acc' _ s hs; cases hs
  | cons head rest ih =>
    intro acc acc' h s hs hcf
    rcases List.mem_cons.mp hs with rfl | hmem
    · cases hacq : acquire s with
      | ok => rw [hacq] at hcf; simp [AcquireResult.consentFailure] at hcf
      | err e =>
        rw [hacq] at hcf
        simp only [AcquireResult.consentFailure] at hcf
        simp only [checkScopesLoop, hacq, if_pos hcf] at h
        exact checkScopesLoop_missing_mono acquire _ _ _ h _
          (List.mem_append.mpr (.inr (List.mem_singleton.mpr rfl)))
    · cases hacq : acquire head with
      | ok =>
        simp only [checkScopesLoop, hacq] at h
        exact ih _ _ h s hmem hcf
      | err e =>
        by_cases hc : isConsentError e.effCode e.effMessage = true
        · simp only [checkScopesLoop, hacq, if_pos hc] at h
          exact ih _ _ h s hmem hcf
        · simp only [checkScopesLoop, hacq, if_neg hc] at h
          cases h

theorem checkScopesLoop_all_ok (acquire : String → AcquireResult) :
    ∀ (scopes : List String) (acc : ScopeAcc),
      (∀ s ∈ scopes, acquire s = .ok) →
      checkScopesLoop acquire scopes acc =
        .ok ⟨acc.granted ++ scopes.map scopeNameOf, acc.missing, acc.scopeErrors⟩ := by
  intro scopes
  induction scopes with
  | nil => intro acc _; simp [checkScopesLoop]
  | cons head rest ih =>
    intro acc hall
    have hhead := hall head (List.mem_cons_self _ _)
    simp only [checkScopesLoop, hhead]
    rw [ih _ (fun s hs => hall s (List.mem_cons_of_mem _ hs))]
    simp

/-! ## Substring occurrence, characterized -/

theorem isPrefixOf_iff_exists (l1 : List Char) :
    ∀ l2 : List Char, l1.isPrefixOf l2 = true ↔ ∃ t, l2 = l1 ++ t := by
  induction l1 with
  | nil => intro l2; simp [List.isPrefixOf]
  | cons a as ih =>
    intro l2
    cases l2 with
    | nil => simp [List.isPrefixOf]
    | cons b bs =>
      simp only [List.isPrefixOf, Bool.and_eq_true, beq_iff_eq, ih bs]
      constructor
      · rintro ⟨rfl, t, rfl⟩; exact ⟨t, rfl⟩
      · rintro ⟨t, ht⟩
        injection ht with h1 h2
        exact ⟨h1.symm, t, h2⟩

theorem includesAux_iff (sub : List Char) :
    ∀ hay : List Char, includesAux sub hay = true ↔ ∃ p q, hay = p ++ sub ++ q := by
  intro hay
  induction hay with
  | nil =>
    simp only [includesAux, isPrefixOf_iff_exists]
    constructor
    · rintro ⟨t, ht⟩
      rcases List.append_eq_nil.mp ht.symm with ⟨h1, _⟩
      exact ⟨[], [], by simp [h1]⟩
    · rintro ⟨p, q, hpq⟩
      rcases List.append_eq_nil.mp hpq.symm with ⟨h1, _⟩
      rcases List.append_eq_nil.mp h1 with ⟨_, hsub⟩
      exact ⟨[], by simp [hsub]⟩
  | cons c t ih =>
    simp only [includesAux, Bool.or_eq_true, ih, isPrefixOf_iff_exists]
    constructor
    · rintro (⟨q, hq⟩ | ⟨p, q, hpq⟩)
      · exact ⟨[], q, by simpa using hq⟩
      · exact ⟨c :: p, q, by simp [hpq]⟩
    · rintro ⟨p, q, hpq⟩
      cases p with
      | nil => exact .inl ⟨q, by simpa using hpq⟩
      | cons x xs =>
        right
        injection hpq with h1 h2
        exact ⟨xs, q, h2⟩

/-- `sub` occurs in `s` as a contiguous substring. -/
def occursIn (sub s : String) : Prop :=
  ∃ p q : List Char, s.toList = p ++ sub.toList ++ q

theorem jsIncludes_iff (s sub : String) :
    jsIncludes s sub = true ↔ occursIn sub s :=
  includesAux_iff sub.toList s.toList

/-! ## Decomposition of a successful consent check -/

theorem checkConsent_ok_elim (cfg : ConsentConfig) (acquire : String → AcquireResult)
    (account : Account) (r : ConsentResponse)
    (h : checkConsent cfg acquire account = .ok r) :
    ∃ acc, checkScopesLoop acquire (cfg.graphScopes ++ cfg.tdpScopes) ⟨[], [], []⟩ = .ok acc ∧
      ((acc.missing.length > 0 ∧
          r = ⟨false, acc.granted, acc.missing, acc.scopeErrors,
            some (adminConsentUrlFor account.tenantId cfg.clientId
              cfg.adminConsentRedirectUri)⟩) ∨
       (acc.missing = [] ∧ r = ⟨true, acc.granted, [], [], none⟩)) := by
  rw [checkConsent_run] at h
  cases hloop : checkScopesLoop acquire (cfg.graphScopes ++ cfg.tdpScopes) ⟨[], [], []⟩ with
  | error e => simp only [hloop] at h; cases h
  | ok acc =>
    simp only [hloop] at h
    refine ⟨acc, rfl, ?_⟩
    by_cases hm : acc.missing.length > 0
    · rw [if_pos hm] at h
      injection h with h
      exact .inl ⟨hm, h.symm⟩
    · rw [if_neg hm] at h
      injection h with h
      have hmz : acc.missing = [] := by
        cases hmiss : acc.missing with
        | nil => rfl
        | cons a l => rw [hmiss] at hm; simp at hm
      exact .inr ⟨hmz, h.symm⟩

/-! ## Claims about the consent check -/

/-- C1: if any silent token acquisition fails with an error not classified as
a consent error, the whole check fails with an error result — no
granted/missing split is produced — and, in any successful check, every name
in the granted list comes from a scope whose acquisition succeeded, so a
scope that failed with an unexpected error never appears in the granted
list. -/
theorem claim_C1_unexpected_aborts_check (cfg : ConsentConfig)
    (acquire : String → AcquireResult) (account : Account) :
    ((∃ s ∈ cfg.graphScopes ++ cfg.tdpScopes, (acquire s).unexpectedFailure = true) →
      ∃ msg, checkConsent cfg acquire account = .error msg) ∧
    (∀ r, checkConsent cfg acquire account = .ok r →
      ∀ n ∈ r.grantedScopes,
        ∃ s, s ∈ cfg.graphScopes ++ cfg.tdpScopes ∧ scopeNameOf s = n ∧ acquire s = .ok) := by
  constructor
  · intro h
    rcases checkScopesLoop_error_of_unexpected acquire _ ⟨[], [], []⟩ h with ⟨msg, hmsg⟩
    refine ⟨msg, ?_⟩
    rw [checkConsent_run, hmsg]
  · intro r hr n hn
    rcases checkConsent_ok_elim cfg acquire account r hr with
      ⟨acc, hloop, (⟨hm, rfl⟩ | ⟨hm, rfl⟩)⟩ <;>
    · rcases checkScopesLoop_granted_src acquire _ _ _ hloop n hn with hold | hsrc
      · cases hold
      · exact hsrc

/-- C1 witness: with an oracle that fails the Graph scope with a network
error, the default-configuration check errors out. -/
theorem claim_C1_unexpected_aborts_check_witness :
    ∃ msg,
      checkConsent CONFIG
        (fun _ => .err ⟨some "network_error", "ClientAuthError", some "fetch failed"⟩)
        ⟨"acct", "user@contoso.com", "tenant-1"⟩ = .error msg :=
  (claim_C1_unexpected_aborts_check CONFIG _ _).1
    ⟨"https://graph.microsoft.com/Application.ReadWrite.All", by decide, by decide⟩

/-- C2: a silent-acquisition failure is classified as a consent error exactly
when the error code the handler computes (`error.errorCode || error.name`) is
`consent_required` or `interaction_required`, or is `invalid_grant` with a
message containing `AADSTS65001` or `has not consented` as a substring; every
other failure is classified as unexpected (the two classifications are
complementary on failures). -/
theorem claim_C2_consent_classification (e : SilentError) :
    ((AcquireResult.err e).consentFailure = true ↔
      (e.effCode = "consent_required" ∨ e.effCode = "interaction_required" ∨
        (e.effCode = "invalid_grant" ∧
          (occursIn "AADSTS65001" e.effMessage ∨
           occursIn "has not consented" e.effMessage)))) ∧
    (AcquireResult.err e).unexpectedFailure = !(AcquireResult.err e).consentFailure := by
  constructor
  · simp only [AcquireResult.consentFailure, isConsentError, ← jsIncludes_iff,
      Bool.or_eq_true, Bool.and_eq_true, beq_iff_eq]
    tauto
  · simp [AcquireResult.unexpectedFailure, AcquireResult.consentFailure]

/-- C2 witness: the legacy `invalid_grant` error whose message embeds
`AADSTS65001` is classified as a consent error. -/
theorem claim_C2_consent_classification_witness :
    (AcquireResult.err ⟨some "invalid_grant", "ServerError",
      some "AADSTS65001: The user or administrator has not consented to use the application."⟩).consentFailure
      = true :=
  (claim_C2_consent_classification _).1.mpr
    (Or.inr (Or.inr ⟨by decide,
      Or.inl ⟨[],
        (": The user or administrator has not consented to use the application.").toList,
        by decide⟩⟩))

/-- C3: if every silent acquisition succeeds, the check returns
`hasConsent = true` with all scope names granted (in order) and no missing
list; and any successful check reports `hasConsent = true` exactly when the
missing list it computed is empty. -/
theorem claim_C3_all_granted (cfg : ConsentConfig) (acquire : String → AcquireResult)
    (account : Account) :
    ((∀ s ∈ cfg.graphScopes ++ cfg.tdpScopes, acquire s = .ok) →
      checkConsent cfg acquire account =
        .ok ⟨true, (cfg.graphScopes ++ cfg.tdpScopes).map scopeNameOf, [], [], none⟩) ∧
    (∀ r, checkConsent cfg acquire account = .ok r →
      (r.hasConsent = true ↔ r.missingScopes = [])) := by
  constructor
  · intro hall
    rw [checkConsent_run, checkScopesLoop_all_ok acquire _ _ hall]
    simp
  · intro r hr
    rcases checkConsent_ok_elim cfg acquire account r hr with
      ⟨acc, _, (⟨hm, rfl⟩ | ⟨_, rfl⟩)⟩
    · have hne : acc.missing ≠ [] := by
        intro hh
        rw [hh] at hm
        simp at hm
      simp [hne]
    · simp

/-- C3 witness: with an always-granting oracle the default configuration
yields `hasConsent = true` and both short scope names. -/
theorem claim_C3_all_granted_witness :
    checkConsent CONFIG (fun _ => .ok) ⟨"acct", "user@contoso.com", "tenant-1"⟩ =
      .ok ⟨true, ["Application.ReadWrite.All", "AppDefinitions.ReadWrite"], [], [], none⟩ := by
  have h := (claim_C3_all_granted CONFIG (fun _ => .ok)
    ⟨"acct", "user@contoso.com", "tenant-1"⟩).1 (fun s _ => rfl)
  rw [h]
  rfl

/-- C4: whenever a successful check finds missing scopes, the result carries
the admin consent URL built from the fixed template — authority base, the
session account's tenant id, the `adminconsent` path, `client_id`, and the
percent-encoded configured redirect URI — and, provided the configured short
scope names are pairwise distinct (true of the shipped configuration), every
consent-classified scope lands in the missing list and never in the granted
list. -/
theorem claim_C4_consent_url_and_split (cfg : ConsentConfig)
    (acquire : String → AcquireResult) (account : Account) (r : ConsentResponse)
    (hnd : (((cfg.graphScopes ++ cfg.tdpScopes).map scopeNameOf)).Nodup)
    (hr : checkConsent cfg acquire account = .ok r) :
    (r.missingScopes ≠ [] →
      r.adminConsentUrl =
        some ("https://login.microsoftonline.com/" ++ account.tenantId ++
          "/adminconsent?client_id=" ++ cfg.clientId ++ "&redirect_uri=" ++
          encodeURIComponent cfg.adminConsentRedirectUri)) ∧
    (∀ s, s ∈ cfg.graphScopes ++ cfg.tdpScopes → (acquire s).consentFailure = true →
      scopeNameOf s ∈ r.missingScopes ∧ scopeNameOf s ∉ r.grantedScopes) := by
  rcases checkConsent_ok_elim cfg acquire account r hr with
    ⟨acc, hloop, (⟨hm, rfl⟩ | ⟨hmz, rfl⟩)⟩
  · constructor
    · intro _
      rfl
    · intro s hs hcf
      constructor
      · exact checkScopesLoop_missing_complete acquire _ _ _ hloop s hs hcf
      · intro hg
        rcases checkScopesLoop_granted_src acquire _ _ _ hloop _ hg with hold | ⟨s2, hs2, hname, hok⟩
        · cases hold
        · have hss : s2 = s := List.inj_on_of_nodup_map hnd hs2 hs hname
          rw [hss] at hok
          rw [hok] at hcf
          simp [AcquireResult.consentFailure] at hcf
  · constructor
    · intro hne
      exact absurd rfl hne
    · intro s hs hcf
      have := checkScopesLoop_missing_complete acquire _ _ _ hloop s hs hcf
      rw [hmz] at this
      cases this

set_option maxRecDepth 100000 in
/-- C4 witness: with the Graph scope granted and the TDP scope failing with
`consent_required`, the default configuration reports the TDP scope missing,
not granted, and the concrete consent URL. -/
theorem claim_C4_consent_url_and_split_witness :
    "AppDefinitions.ReadWrite" ∈
        (ConsentResponse.mk false ["Application.ReadWrite.All"] ["AppDefinitions.ReadWrite"]
          [("AppDefinitions.ReadWrite", "consent_required")]
          (some ("https://login.microsoftonline.com/tenant-1/adminconsent?client_id=YOUR_CLIENT_ID&redirect_uri=http%3A%2F%2Flocalhost%3A8080%2Fadmin-consent-callback.html"))).missingScopes ∧
      "AppDefinitions.ReadWrite" ∉
        (ConsentResponse.mk false ["Application.ReadWrite.All"] ["AppDefinitions.ReadWrite"]
          [("AppDefinitions.ReadWrite", "consent_required")]
          (some ("https://login.microsoftonline.com/tenant-1/adminconsent?client_id=YOUR_CLIENT_ID&redirect_uri=http%3A%2F%2Flocalhost%3A8080%2Fadmin-consent-callback.html"))).grantedScopes := by
  have h := (claim_C4_consent_url_and_split CONFIG
    (fun s => if s = "https://dev.teams.microsoft.com/AppDefinitions.ReadWrite" then
        .err ⟨some "consent_required", "InteractionRequiredAuthError", some "consent needed"⟩
      else .ok)
    ⟨"acct", "user@contoso.com", "tenant-1"⟩
    (ConsentResponse.mk false ["Application.ReadWrite.All"] ["AppDefinitions.ReadWrite"]
      [("AppDefinitions.ReadWrite", "consent_required")]
      (some ("https://login.microsoftonline.com/tenant-1/adminconsent?client_id=YOUR_CLIENT_ID&redirect_uri=http%3A%2F%2Flocalhost%3A8080%2Fadmin-consent-callback.html")))
    (by decide) rfl).2
    "https://dev.teams.microsoft.com/AppDefinitions.ReadWrite" (by decide) (by decide)
  exact h

/-- C10: every name the default-configuration check records, granted or
missing, is the short name of one of the configured scopes, and for each
configured scope that short name is exactly the substring after the final
`/` of the resource-qualified scope URI — never the full scope string. -/
theorem claim_C10_short_scope_names (acquire : String → AcquireResult) (account : Account)
    (r : ConsentResponse) (hr : checkConsent CONFIG acquire account = .ok r) :
    (∀ n, n ∈ r.grantedScopes ∨ n ∈ r.missingScopes →
      ∃ s, s ∈ CONFIG.graphScopes ++ CONFIG.tdpScopes ∧ n = scopeNameOf s) ∧
    (∀ s ∈ CONFIG.graphScopes ++ CONFIG.tdpScopes,
      scopeNameOf s = suffixAfterLastSlash s ∧ scopeNameOf s ≠ s) ∧
    scopeNameOf "https://graph.microsoft.com/Application.ReadWrite.All" =
      "Application.ReadWrite.All" ∧
    scopeNameOf "https://dev.teams.microsoft.com/AppDefinitions.ReadWrite" =
      "AppDefinitions.ReadWrite" := by
  refine ⟨?_, by decide, by decide, by decide⟩
  intro n hn
  rcases checkConsent_ok_elim CONFIG acquire account r hr with
    ⟨acc, hloop, (⟨hm, rfl⟩ | ⟨hmz, rfl⟩)⟩
  · rcases hn with hg | hmiss
    · rcases checkScopesLoop_granted_src acquire _ _ _ hloop n hg with hold | ⟨s, hs, hname, _⟩
      · cases hold
      · exact ⟨s, hs, hname.symm⟩
    · rcases checkScopesLoop_missing_src acquire _ _ _ hloop n hmiss with hold | ⟨s, hs, hname, _⟩
      · cases hold
      · exact ⟨s, hs, hname.symm⟩
  · rcases hn with hg | hmiss
    · rcases checkScopesLoop_granted_src acquire _ _ _ hloop n hg with hold | ⟨s, hs, hname, _⟩
      · cases hold
      · exact ⟨s, hs, hname.symm⟩
    · cases hmiss

/-- C10 witness: in the all-granted run, both recorded names are short names
of configured scopes. -/
theorem claim_C10_short_scope_names_witness :
    ∃ s, s ∈ CONFIG.graphScopes ++ CONFIG.tdpScopes ∧
      "Application.ReadWrite.All" = scopeNameOf s := by
  have h := (claim_C10_short_scope_names (fun _ => .ok)
    ⟨"acct", "user@contoso.com", "tenant-1"⟩
    ⟨true, ["Application.ReadWrite.All", "AppDefinitions.ReadWrite"], [], [], none⟩ rfl).1
  exact h "Application.ReadWrite.All" (.inl (by decide))

/-! ## Claims about the provisioning pipeline -/

/-- C5: when all remote collaborators succeed, the pipeline invokes them in
the order create-identity, mint-secret (with step 1's object id),
create-package (with step 1's client id), register-bot (with step 1's client
id and the caller's endpoint), and the returned credentials are exactly the
client id from step 1, the secret from step 2, the Teams app id from step 3
and the caller's endpoint. -/
theorem claim_C5_success_order_and_credentials (b : Backend) (botName botEndpoint : String)
    (a : AadAppResult) (sec : SecretResult) (ta : TeamsAppResult) (tid : String)
    (h1 : b.aadApp botName = .ok a)
    (h2 : b.clientSecret a.objectId = .ok sec)
    (h3 : b.teamsApp a.clientId botName = .ok ta)
    (h4 : b.bot a.clientId botName botEndpoint = .ok ())
    (h5 : b.complete = .ok tid) :
    runProvisioning b botName botEndpoint =
      (.ok { clientIdVal := some a.clientId
             clientSecretVal := some sec.clientSecret
             teamsAppIdVal := some ta.teamsAppId
             botEndpointVal := some botEndpoint
             tenantIdVal := some tid },
       [RemoteCall.createAadApp botName,
        RemoteCall.createClientSecret a.objectId,
        RemoteCall.createTeamsApp a.clientId botName,
        RemoteCall.registerBot a.clientId botName botEndpoint,
        RemoteCall.provisionComplete]) := by
  simp [runProvisioning, h1, h2, h3, h4, h5]

/-- Mocked collaborators that succeed with fixed responses. -/
def demoBackend : Backend :=
  { aadApp := fun _ => .ok ⟨"client-123", "obj-456"⟩
    clientSecret := fun _ => .ok ⟨"secret-xyz"⟩
    teamsApp := fun _ _ => .ok ⟨"teams-789", "tenant-1"⟩
    bot := fun _ _ _ => .ok ()
    complete := .ok "tenant-1" }

/-- C5 witness: the concrete all-success run. -/
theorem claim_C5_success_order_and_credentials_witness :
    runProvisioning demoBackend "My Bot" "https://bot.example.com/api/messages" =
      (.ok { clientIdVal := some "client-123"
             clientSecretVal := some "secret-xyz"
             teamsAppIdVal := some "teams-789"
             botEndpointVal := some "https://bot.example.com/api/messages"
             tenantIdVal := some "tenant-1" },
       [RemoteCall.createAadApp "My Bot",
        RemoteCall.createClientSecret "obj-456",
        RemoteCall.createTeamsApp "client-123" "My Bot",
        RemoteCall.registerBot "client-123" "My Bot" "https://bot.example.com/api/messages",
        RemoteCall.provisionComplete]) :=
  claim_C5_success_order_and_credentials demoBackend "My Bot"
    "https://bot.example.com/api/messages" ⟨"client-123", "obj-456"⟩ ⟨"secret-xyz"⟩
    ⟨"teams-789", "tenant-1"⟩ "tenant-1" rfl rfl rfl rfl rfl

/-- Mocked wizard backend where mint-secret answers HTTP 500 — its resolved
error body carries no `clientSecret` — while every other endpoint succeeds. -/
def secretFailWizardBackend : WizardBackend :=
  { aadApp := fun _ => .resolved ⟨some "client-123", some "obj-456"⟩
    clientSecret := fun _ => .resolved ⟨none⟩
    teamsApp := fun _ _ => .resolved ⟨some "teams-789"⟩
    bot := fun _ _ _ => .resolved ()
    complete := .resolved ⟨some ⟨some "tenant-1"⟩⟩ }

/-- C7 (code bug in the wizard frontend): the reference frontend aborts a
fatally failed mint-secret step after exactly two collaborator calls and
surfaces that step's error, as the claim states; but the wizard
`runProvisioning` never reads `response.ok`, so the same fatal mint-secret
failure — a resolved HTTP 500 — does not abort there: create-package and
register-bot are still invoked, the run completes without surfacing any
error, and the displayed credentials simply lack the client secret. -/
theorem claim_C7_resolved_error_continues :
    (startProvisioningRef
        { demoBackend with clientSecret := fun _ => .error "403 insufficient privileges" }
        "tenant-1" "My Bot" "https://bot.example.com/api/messages" =
      (.error ("Secret generation failed: " ++ "403 insufficient privileges"),
       [RemoteCall.createAadApp "My Bot", RemoteCall.createClientSecret "obj-456"])) ∧
    (runProvisioningFetch secretFailWizardBackend "My Bot"
        "https://bot.example.com/api/messages" =
      (.ok { clientIdVal := some "client-123"
             clientSecretVal := none
             teamsAppIdVal := some "teams-789"
             botEndpointVal := some "https://bot.example.com/api/messages"
             tenantIdVal := some "tenant-1" },
       [WizardCall.aadAppPost "My Bot",
        WizardCall.clientSecretPost (some "obj-456"),
        WizardCall.teamsAppPost (some "client-123") "My Bot",
        WizardCall.botPost (some "client-123") "My Bot"
          "https://bot.example.com/api/messages",
        WizardCall.completePost])) :=
  ⟨rfl, rfl⟩

/-- C8: an endpoint that does not start with `https://` is rejected before any
backend call — the trace is empty and an error is reported; when both form
fields are non-empty the rejection message is the endpoint-specific one. -/
theorem claim_C8_non_https_rejected (b : Backend) (botName botEndpoint : String)
    (h : jsStartsWith botEndpoint "https://" = false) :
    (startProvisionClick b botName botEndpoint).2 = [] ∧
    (∃ msg, (startProvisionClick b botName botEndpoint).1 = .error msg) ∧
    (¬(botName = "" ∨ botEndpoint = "") →
      (startProvisionClick b botName botEndpoint).1 = .error "Bot endpoint must be HTTPS") := by
  rw [startProvisionClick]
  by_cases h0 : botName = "" ∨ botEndpoint = ""
  · rw [if_pos h0]
    exact ⟨rfl, ⟨_, rfl⟩, fun hcon => absurd h0 hcon⟩
  · rw [if_neg h0, h]
    exact ⟨rfl, ⟨_, rfl⟩, fun _ => rfl⟩

/-- C8 witness: an `http://` endpoint is rejected with no backend call. -/
theorem claim_C8_non_https_rejected_witness :
    (startProvisionClick demoBackend "My Bot" "http://bot.example.com/api/messages").2 = [] ∧
    (startProvisionClick demoBackend "My Bot" "http://bot.example.com/api/messages").1 =
      .error "Bot endpoint must be HTTPS" := by
  have h := claim_C8_non_https_rejected demoBackend "My Bot"
    "http://bot.example.com/api/messages" (by decide)
  exact ⟨h.1, h.2.2 (by simp)⟩

/-! ## Claim about the bot-registration conflict recovery -/

/-- Token supply and a create call that reports the entry already exists. -/
def conflictBotApi : BotApi :=
  { getToken := fun n => .ok (if n = 0 then "token-first" else "token-second")
    create := fun _ _ _ _ => .conflict
    update := fun _ _ _ _ => .ok () }

/-- Token supply and a create call that rejects with a non-409 failure. -/
def fatalBotApi : BotApi :=
  { getToken := fun n => .ok (if n = 0 then "token-first" else "token-second")
    create := fun _ _ _ _ => .otherFailure "upstream 500"
    update := fun _ _ _ _ => .ok () }

/-- C6: in the confidential-client servers a 409 from the create call leads to
exactly one update call to the same bot id and endpoint using the freshly
fetched second token, after which the endpoint reports success, while a
non-409 failure is fatal with no update call; but in the device-code server
(`part_008`) the 409 branch dereferences the out-of-scope `token` constant,
so the update call is never issued and the endpoint answers 500
`token is not defined` instead of recovering. -/
theorem claim_C6_conflict_recovery_bug :
    (provisionBotConfidential conflictBotApi "bot-1" "My Bot"
        "https://bot.example.com/api/messages" =
      (.success true,
       [BotCall.acquireToken,
        BotCall.createBot "token-first" "bot-1" "My Bot" "https://bot.example.com/api/messages",
        BotCall.acquireToken,
        BotCall.updateBot "token-second" "bot-1" "My Bot"
          "https://bot.example.com/api/messages"])) ∧
    (provisionBotConfidential fatalBotApi "bot-1" "My Bot"
        "https://bot.example.com/api/messages" =
      (.serverError "upstream 500",
       [BotCall.acquireToken,
        BotCall.createBot "token-first" "bot-1" "My Bot"
          "https://bot.example.com/api/messages"])) ∧
    (provisionBotDeviceCode conflictBotApi "bot-1" "My Bot"
        "https://bot.example.com/api/messages" =
      (.serverError "token is not defined",
       [BotCall.acquireToken,
        BotCall.createBot "token-first" "bot-1" "My Bot"
          "https://bot.example.com/api/messages"])) :=
  ⟨rfl, rfl, rfl⟩

/-! ## Claim about session isolation -/

/-- C9: two authentication callbacks completing with different codes and
distinct generated identifiers produce two sessions that resolve
independently: each id maps to its own account, and the consent check under
one session id is a function of that session's account only. -/
theorem claim_C9_session_isolation
    (exchange : String → Except String Account) (code1 code2 id1 id2 : String)
    (t1 t2 : Nat) (acc1 acc2 : Account)
    (hne : id1 ≠ id2) (hc1 : code1 ≠ "") (hc2 : code2 ≠ "")
    (hx1 : exchange code1 = .ok acc1) (hx2 : exchange code2 = .ok acc2) :
    (authCallback exchange id1 t1 [] (some code1)).2 =
      .ok ⟨id1, acc1.username, acc1.tenantId⟩ ∧
    (authCallback exchange id2 t2
        (authCallback exchange id1 t1 [] (some code1)).1 (some code2)).2 =
      .ok ⟨id2, acc2.username, acc2.tenantId⟩ ∧
    sessionsGet (authCallback exchange id2 t2
        (authCallback exchange id1 t1 [] (some code1)).1 (some code2)).1 id1 =
      some ⟨acc1, t1⟩ ∧
    sessionsGet (authCallback exchange id2 t2
        (authCallback exchange id1 t1 [] (some code1)).1 (some code2)).1 id2 =
      some ⟨acc2, t2⟩ ∧
    (∀ (cfg : ConsentConfig) (acquire : String → AcquireResult),
      checkConsentEndpoint cfg acquire
          (authCallback exchange id2 t2
            (authCallback exchange id1 t1 [] (some code1)).1 (some code2)).1 id1 =
        (match checkConsent cfg acquire acc1 with
          | .ok r => .ok r
          | .error e => .failed e) ∧
      checkConsentEndpoint cfg acquire
          (authCallback exchange id2 t2
            (authCallback exchange id1 t1 [] (some code1)).1 (some code2)).1 id2 =
        (match checkConsent cfg acquire acc2 with
          | .ok r => .ok r
          | .error e => .failed e)) := by
  have hs1 : authCallback exchange id1 t1 [] (some code1) =
      ([(id1, ⟨acc1, t1⟩)], .ok ⟨id1, acc1.username, acc1.tenantId⟩) := by
    simp [authCallback, hc1, hx1, sessionsSet]
  have hs2 : authCallback exchange id2 t2 [(id1, (⟨acc1, t1⟩ : SessionData))] (some code2) =
      ([(id1, ⟨acc1, t1⟩), (id2, ⟨acc2, t2⟩)],
        .ok ⟨id2, acc2.username, acc2.tenantId⟩) := by
    simp [authCallback, hc2, hx2, sessionsSet, hne, hne.symm]
  have hg1 : sessionsGet [(id1, (⟨acc1, t1⟩ : SessionData)),
      (id2, (⟨acc2, t2⟩ : SessionData))] id1 = some ⟨acc1, t1⟩ := by
    simp [sessionsGet]
  have hg2 : sessionsGet [(id1, (⟨acc1, t1⟩ : SessionData)),
      (id2, (⟨acc2, t2⟩ : SessionData))] id2 = some ⟨acc2, t2⟩ := by
    simp [sessionsGet, hne, hne.symm]
  simp only [hs1, hs2]
  refine ⟨trivial, trivial, hg1, hg2, ?_⟩
  intro cfg acquire
  constructor
  · rw [checkConsentEndpoint, hg1]
  · rw [checkConsentEndpoint, hg2]

/-- Mocked code-for-account exchange with two valid authorization codes. -/
def demoExchange : String → Except String Account :=
  fun code =>
    if code = "code-alpha" then .ok ⟨"acct-a", "alice@contoso.com", "tenant-a"⟩
    else if code = "code-beta" then .ok ⟨"acct-b", "bob@fabrikam.com", "tenant-b"⟩
    else .error "invalid_grant"

/-- C9 witness: after two concrete callbacks, the first session id still
resolves to the first account. -/
theorem claim_C9_session_isolation_witness :
    sessionsGet (authCallback demoExchange "sess-2" 20
        (authCallback demoExchange "sess-1" 10 [] (some "code-alpha")).1
        (some "code-beta")).1 "sess-1" =
      some ⟨⟨"acct-a", "alice@contoso.com", "tenant-a"⟩, 10⟩ :=
  (claim_C9_session_isolation demoExchange "code-alpha" "code-beta" "sess-1" "sess-2"
    10 20 ⟨"acct-a", "alice@contoso.com", "tenant-a"⟩
    ⟨"acct-b", "bob@fabrikam.com", "tenant-b"⟩
    (by decide) (by decide) (by decide) rfl rfl).2.2.1

end BotProv
